import Mathlib

/-!
Verification of the plugin-composition subsystem of the remirror extension
manager (`@remirror/core/src/builtins/plugins-extension.ts`), shallowly
embedded in Lean 4.  Opaque host-editor objects (ProseMirror plugins, plugin
keys, editor states) are represented by first-order data carrying enough
identity for the reference-equality and ordering questions the subsystem
raises.
-/

namespace Remirror

/-- A ProseMirror `PluginKey`.  `new PluginKey(name)` allocates a fresh token;
the `uid` field models that freshness (each allocation in a run gets a
distinct uid). -/
structure PluginKey where
  name : String
  uid : Nat
deriving DecidableEq, Repr

/-- The value returned by an extension's `createPlugin()` method
(`CreatePluginReturn`: a `PluginSpec` without its `key`).  `payload` stands
for the opaque spec content (state reducer, props, ...); `key` models a `key`
property the raw runtime object may carry anyway, which the collector's
spread-merge must override. -/
structure CreatePluginReturn where
  payload : Nat
  key : Option PluginKey
deriving DecidableEq, Repr

/-- A `ProsemirrorPlugin` object.  `created spec` is the result of
`new Plugin(pluginSpec)`; `external id` is an opaque third-party plugin
object, identified (as in JS reference identity) by an id. -/
inductive ProsemirrorPlugin where
  | created (spec : CreatePluginReturn)
  | external (id : Nat)
deriving DecidableEq, Repr

/-- The identifier accepted by the state-getter registry: either the
extension's `name` (a string) or its constructor (modelled by a numeric
constructor id). -/
inductive GetterId where
  | byName (name : String)
  | byCtor (ctorId : Nat)
deriving DecidableEq, Repr

/-- The lifecycle-scoped fields the collector assigns onto an extension
instance.  A state getter is a closure bound to one plugin key that reads the
live view state at call time, so a registered getter is represented by its
bound key.  The `plugin` field is declared on the `BaseExtension` interface
in the same source file; whether the collector ever assigns it is one of the
questions settled below, so it is carried here as an `Option`. -/
structure AttachedFields where
  pluginKey : Option PluginKey
  getPluginState : Option PluginKey
  plugin : Option ProsemirrorPlugin
deriving DecidableEq, Repr

/-- An extension as seen by this subsystem: a name, a constructor identity,
the truthiness of `options.exclude?.plugins`, and the two optional
plugin-creation hooks.  A hook that is `Option.none` models a method the
extension does not define; `createPlugin = some spec` models a method that
returns `spec`, and `createExternalPlugins = some ps` one that returns the
list `ps`. -/
structure Extension where
  name : String
  ctorId : Nat
  excludePlugins : Bool
  createPlugin : Option CreatePluginReturn
  createExternalPlugins : Option (List ProsemirrorPlugin)
deriving DecidableEq, Repr

/-- The slice of `managerSettings` this subsystem reads: the truthiness of
`managerSettings.exclude?.plugins`. -/
structure ManagerSettings where
  excludePlugins : Bool
deriving DecidableEq, Repr

/-- JS object / `Map` assignment on an association list: overwrite the first
binding of the key if present, otherwise append a new binding. -/
def recordSet {α β : Type} [DecidableEq α] : List (α × β) → α → β → List (α × β)
  | [], k, v => [(k, v)]
  | (k₁, v₁) :: rest, k, v =>
      if k₁ = k then (k₁, v) :: rest else (k₁, v₁) :: recordSet rest k v

/-- JS object / `Map` lookup on an association list. -/
def recordGet {α β : Type} [DecidableEq α] : List (α × β) → α → Option β
  | [], _ => Option.none
  | (k₁, v₁) :: rest, k => if k₁ = k then some v₁ else recordGet rest k

/-- The mutable fields of the `PluginsExtension` instance touched by
`createEachExtensionPlugins`, together with the manager-attached per-extension
fields (`attached`, keyed by constructor id) and a freshness counter for
`new PluginKey` allocations. -/
structure CollectorState where
  extensionPlugins : List ProsemirrorPlugin
  pluginKeys : List (String × PluginKey)
  stateGetters : List (GetterId × PluginKey)
  attached : List (Nat × AttachedFields)
  nextUid : Nat
deriving DecidableEq, Repr

/-- The collector's state at manager construction: everything empty. -/
def CollectorState.init : CollectorState :=
  ⟨[], [], [], [], 0⟩

/-- `createEachExtensionPlugins(extension)`, translated statement by
statement: return early when the extension declares neither hook or when
either the manager-level or the extension-level exclusion is truthy;
otherwise allocate `new PluginKey(extension.name)`; if `createPlugin` is
defined, record the key under the extension name, attach `pluginKey` and
`getPluginState` to the instance, register the getter under both the name and
the constructor, build the plugin spec as `{ ...extension.createPlugin(),
key }`, and push `new Plugin(pluginSpec)`; finally, if
`createExternalPlugins` is defined, push its results. -/
def createEachExtensionPlugins (settings : ManagerSettings) (s : CollectorState)
    (extension : Extension) : CollectorState :=
  let isNotPluginCreator :=
    extension.createPlugin.isNone && extension.createExternalPlugins.isNone
  if isNotPluginCreator || settings.excludePlugins || extension.excludePlugins then
    s
  else
    let key : PluginKey := ⟨extension.name, s.nextUid⟩
    let s₀ := { s with nextUid := s.nextUid + 1 }
    let s₁ :=
      match extension.createPlugin with
      | some spec =>
          let pluginSpec : CreatePluginReturn := { spec with key := some key }
          { s₀ with
            pluginKeys := recordSet s₀.pluginKeys extension.name key
            attached := recordSet s₀.attached extension.ctorId
              ⟨some key, some key, Option.none⟩
            stateGetters :=
              recordSet
                (recordSet s₀.stateGetters (GetterId.byName extension.name) key)
                (GetterId.byCtor extension.ctorId) key
            extensionPlugins :=
              s₀.extensionPlugins ++ [ProsemirrorPlugin.created pluginSpec] }
      | Option.none => s₀
    match extension.createExternalPlugins with
    | some ps => { s₁ with extensionPlugins := s₁.extensionPlugins ++ ps }
    | Option.none => s₁

/-- The loop in `onCreate`: fold `createEachExtensionPlugins` over the
extension list in the order supplied by the caller. -/
def collectRun (settings : ManagerSettings) (extensions : List Extension) :
    CollectorState :=
  extensions.foldl (createEachExtensionPlugins settings) CollectorState.init

/-- Modelled from the spec: `ManagerPhase` lives in `@remirror/core-constants`,
which is not under `src/`.  The spec describes it as "a monotonically
increasing ordinal (Create → Initialize → View → ...)"; `editorView` is the
"view attached" phase that `reconfigureStatePlugins` requires. -/
inductive ManagerPhase where
  | noPhase
  | create
  | init
  | editorView
  | runtime
deriving DecidableEq, Repr

/-- The ordinal of a phase, giving the `>=` comparison the source performs. -/
def ManagerPhase.toNat : ManagerPhase → Nat
  | .noPhase => 0
  | .create => 1
  | .init => 2
  | .editorView => 3
  | .runtime => 4

/-- Modelled from the spec: the host editor's immutable `EditorState`
(external collaborator).  It exposes its plugin list, an opaque document, and
a per-key plugin-state table read by the state getters. -/
structure EditorState where
  doc : Nat
  plugins : List ProsemirrorPlugin
  pluginStates : List (PluginKey × Nat)
deriving DecidableEq, Repr

/-- Modelled from the spec: `state.reconfigure({ plugins })` "derives a new
immutable editor state from the current one by substituting its plugin set". -/
def EditorState.reconfigure (state : EditorState)
    (plugins : List ProsemirrorPlugin) : EditorState :=
  { state with plugins := plugins }

/-- Modelled from the spec: `getPluginState(key, state)` from
`@remirror/core-utils` (not under `src/`), "a plugin-state lookup by key" on
the state object. -/
def getPluginState (key : PluginKey) (state : EditorState) : Option Nat :=
  recordGet state.pluginStates key

/-- The error message of the `invariant` in `getStateByName`. -/
def notFoundMessage : String :=
  "No plugin exists for the requested extension name."

/-- `getStateByName(identifier)`: look the identifier up in the state-getter
registry, fail with the invariant's message when no getter was registered,
otherwise call the getter, which reads the plugin state off the live view
state supplied here (the getter is the closure bound to the key it was
registered with). -/
def getStateByName (stateGetters : List (GetterId × PluginKey))
    (viewState : EditorState) (identifier : GetterId) :
    Except String (Option Nat) :=
  match recordGet stateGetters identifier with
  | Option.none => Except.error notFoundMessage
  | some key => Except.ok (getPluginState key viewState)

/-- The mutable state the three store callables touch: `this.plugins` (which
`setStoreKey('plugins', ...)` republishes verbatim, so one field stands for
both the private field and the published list), the manager phase, and the
live view's state. -/
structure ManagerState where
  plugins : List ProsemirrorPlugin
  phase : ManagerPhase
  viewState : EditorState
deriving DecidableEq, Repr

/-- `addPlugins(...plugins)`: `this.plugins = [...this.plugins, ...plugins]`,
then republish. -/
def addPlugins (s : ManagerState) (plugins : List ProsemirrorPlugin) :
    ManagerState :=
  { s with plugins := s.plugins ++ plugins }

/-- `replacePlugin(original, replacement)`, translated exactly as written:
`this.plugins.map((plugin) => (plugin === original ? replacement : original))`.
Note the `: original` branch — entries that are not `original` are mapped to
`original`, not kept. -/
def replacePlugin (s : ManagerState)
    (original replacement : ProsemirrorPlugin) : ManagerState :=
  { s with
    plugins :=
      s.plugins.map fun plugin =>
        if plugin = original then replacement else original }

/-- The message of the phase invariant in `reconfigureStatePlugins`. -/
def reconfigureMessage : String :=
  "`reconfigureStatePlugins` should only be called after the view has been added to the manager."

/-- `reconfigureStatePlugins()`: first the invariant
`this.store.phase >= ManagerPhase.EditorView` (throwing the phase error when
it fails, before anything else runs), then
`updateState(state.reconfigure({ plugins: this.plugins }))`. -/
def reconfigureStatePlugins (s : ManagerState) : Except String ManagerState :=
  if ManagerPhase.editorView.toNat ≤ s.phase.toNat then
    Except.ok { s with viewState := s.viewState.reconfigure s.plugins }
  else
    Except.error reconfigureMessage

/-- Running `reconfigureStatePlugins` as a caller observes it: a thrown
invariant aborts the call before any assignment, leaving every field of the
manager state as it was. -/
def reconfigureStatePluginsRun (s : ManagerState) : ManagerState :=
  match reconfigureStatePlugins s with
  | Except.ok s' => s'
  | Except.error _ => s

/-- The early-return condition of `createEachExtensionPlugins`: no
plugin-creation hook at all, or a truthy manager-level or extension-level
exclusion. -/
def skipsExtension (settings : ManagerSettings) (extension : Extension) : Bool :=
  (extension.createPlugin.isNone && extension.createExternalPlugins.isNone)
    || settings.excludePlugins || extension.excludePlugins

/-- The block of plugins one extension contributes to the extension-plugin
list when the collector processes it with freshness counter `uid`: nothing
when it is skipped; otherwise its `createPlugin` result (spread-merged with
the allocated key, the key written last) followed by its external plugins. -/
def extensionContribution (settings : ManagerSettings) (uid : Nat)
    (extension : Extension) : List ProsemirrorPlugin :=
  if skipsExtension settings extension then
    []
  else
    (match extension.createPlugin with
     | some spec =>
         [ProsemirrorPlugin.created { spec with key := some ⟨extension.name, uid⟩ }]
     | Option.none => []) ++
    (match extension.createExternalPlugins with
     | some ps => ps
     | Option.none => [])

/-- The freshness counter after one extension is processed: a key is
allocated exactly when the extension is not skipped. -/
def nextUidAfter (settings : ManagerSettings) (uid : Nat)
    (extension : Extension) : Nat :=
  if skipsExtension settings extension then uid else uid + 1

/-- The concatenation, in input order, of every extension's contribution
block, threading the freshness counter. -/
def contributionsFrom (settings : ManagerSettings) (uid : Nat) :
    List Extension → List ProsemirrorPlugin
  | [] => []
  | e :: es =>
      extensionContribution settings uid e ++
        contributionsFrom settings (nextUidAfter settings uid e) es

theorem recordGet_recordSet_self {α β : Type} [DecidableEq α]
    (m : List (α × β)) (k : α) (v : β) :
    recordGet (recordSet m k v) k = some v := by
  induction m with
  | nil => simp [recordSet, recordGet]
  | cons hd tl ih =>
      obtain ⟨k₁, v₁⟩ := hd
      by_cases h : k₁ = k
      · simp [recordSet, recordGet, h]
      · simp [recordSet, recordGet, h, ih]

theorem recordGet_recordSet_ne {α β : Type} [DecidableEq α]
    (m : List (α × β)) (k k' : α) (v : β) (h : k' ≠ k) :
    recordGet (recordSet m k v) k' = recordGet m k' := by
  induction m with
  | nil => simp [recordSet, recordGet, h, Ne.symm h]
  | cons hd tl ih =>
      obtain ⟨k₁, v₁⟩ := hd
      by_cases h₁ : k₁ = k
      · subst h₁
        simp [recordSet, recordGet, Ne.symm h]
      · by_cases h₂ : k₁ = k'
        · subst h₂
          simp [recordSet, recordGet, h₁, h]
        · simp [recordSet, recordGet, h₁, h₂, ih]

/-- A property preserved by every step of a left fold holds of the result. -/
theorem foldl_preserve {α σ : Type} (f : σ → α → σ) (P : σ → Prop)
    (l : List α) (h : ∀ s a, a ∈ l → P s → P (f s a)) (s : σ) (hs : P s) :
    P (l.foldl f s) := by
  induction l generalizing s with
  | nil => exact hs
  | cons hd tl ih =>
      exact ih (fun s' a ha => h s' a (List.mem_cons_of_mem hd ha)) (f s hd)
        (h s hd (List.mem_cons_self hd tl) hs)

theorem createEach_extensionPlugins (settings : ManagerSettings)
    (s : CollectorState) (e : Extension) :
    (createEachExtensionPlugins settings s e).extensionPlugins
      = s.extensionPlugins ++ extensionContribution settings s.nextUid e := by
  obtain ⟨mex⟩ := settings
  obtain ⟨nm, cid, excl, cp, cep⟩ := e
  cases mex <;> cases excl <;> cases cp <;> cases cep <;>
    simp [createEachExtensionPlugins, extensionContribution, skipsExtension]

theorem createEach_nextUid (settings : ManagerSettings)
    (s : CollectorState) (e : Extension) :
    (createEachExtensionPlugins settings s e).nextUid
      = nextUidAfter settings s.nextUid e := by
  obtain ⟨mex⟩ := settings
  obtain ⟨nm, cid, excl, cp, cep⟩ := e
  cases mex <;> cases excl <;> cases cp <;> cases cep <;>
    simp [createEachExtensionPlugins, nextUidAfter, skipsExtension]

theorem createEach_stateGetters (settings : ManagerSettings)
    (s : CollectorState) (e : Extension) :
    (createEachExtensionPlugins settings s e).stateGetters
      = if skipsExtension settings e || e.createPlugin.isNone then s.stateGetters
        else
          recordSet
            (recordSet s.stateGetters (GetterId.byName e.name) ⟨e.name, s.nextUid⟩)
            (GetterId.byCtor e.ctorId) ⟨e.name, s.nextUid⟩ := by
  obtain ⟨mex⟩ := settings
  obtain ⟨nm, cid, excl, cp, cep⟩ := e
  cases mex <;> cases excl <;> cases cp <;> cases cep <;>
    simp [createEachExtensionPlugins, skipsExtension]

theorem createEach_pluginKeys (settings : ManagerSettings)
    (s : CollectorState) (e : Extension) :
    (createEachExtensionPlugins settings s e).pluginKeys
      = if skipsExtension settings e || e.createPlugin.isNone then s.pluginKeys
        else recordSet s.pluginKeys e.name ⟨e.name, s.nextUid⟩ := by
  obtain ⟨mex⟩ := settings
  obtain ⟨nm, cid, excl, cp, cep⟩ := e
  cases mex <;> cases excl <;> cases cp <;> cases cep <;>
    simp [createEachExtensionPlugins, skipsExtension]

theorem createEach_attached (settings : ManagerSettings)
    (s : CollectorState) (e : Extension) :
    (createEachExtensionPlugins settings s e).attached
      = if skipsExtension settings e || e.createPlugin.isNone then s.attached
        else
          recordSet s.attached e.ctorId
            ⟨some ⟨e.name, s.nextUid⟩, some ⟨e.name, s.nextUid⟩, Option.none⟩ := by
  obtain ⟨mex⟩ := settings
  obtain ⟨nm, cid, excl, cp, cep⟩ := e
  cases mex <;> cases excl <;> cases cp <;> cases cep <;>
    simp [createEachExtensionPlugins, skipsExtension]

theorem foldl_extensionPlugins (settings : ManagerSettings)
    (l : List Extension) :
    ∀ s : CollectorState,
      (l.foldl (createEachExtensionPlugins settings) s).extensionPlugins
        = s.extensionPlugins ++ contributionsFrom settings s.nextUid l := by
  induction l with
  | nil => intro s; simp [contributionsFrom]
  | cons hd tl ih =>
      intro s
      simp only [List.foldl_cons, contributionsFrom]
      rw [ih, createEach_extensionPlugins, createEach_nextUid, List.append_assoc]

theorem contributionsFrom_append (settings : ManagerSettings)
    (l₁ l₂ : List Extension) :
    ∀ uid : Nat,
      contributionsFrom settings uid (l₁ ++ l₂)
        = contributionsFrom settings uid l₁ ++
            contributionsFrom settings
              (l₁.foldl (nextUidAfter settings) uid) l₂ := by
  induction l₁ with
  | nil => intro uid; simp [contributionsFrom]
  | cons hd tl ih =>
      intro uid
      simp [contributionsFrom, ih, List.append_assoc]

/-- Both lookup axes of the state-getter registry resolve, for extension `E`,
to one and the same registered getter. -/
def gettersAgreeOn (E : Extension) (s : CollectorState) : Prop :=
  ∃ k, recordGet s.stateGetters (GetterId.byName E.name) = some k
     ∧ recordGet s.stateGetters (GetterId.byCtor E.ctorId) = some k

theorem isNone_false_of_isSome {α : Type} {o : Option α}
    (h : o.isSome = true) : o.isNone = false := by
  obtain ⟨v, hv⟩ := Option.isSome_iff_exists.mp h
  simp [hv]

theorem skipsExtension_false (settings : ManagerSettings) (E : Extension)
    (hcreator : E.createPlugin.isSome = true ∨ E.createExternalPlugins.isSome = true)
    (hsm : settings.excludePlugins = false) (hee : E.excludePlugins = false) :
    skipsExtension settings E = false := by
  rcases hcreator with h | h <;>
    simp [skipsExtension, hsm, hee, isNone_false_of_isSome h]

theorem gettersAgreeOn_establish (settings : ManagerSettings)
    (s : CollectorState) (E : Extension)
    (hplugin : E.createPlugin.isSome = true)
    (hskip : skipsExtension settings E = false) :
    gettersAgreeOn E (createEachExtensionPlugins settings s E) := by
  have hif : (skipsExtension settings E || E.createPlugin.isNone) = false := by
    simp [hskip, isNone_false_of_isSome hplugin]
  refine ⟨⟨E.name, s.nextUid⟩, ?_, ?_⟩ <;>
    simp [createEach_stateGetters, hif, recordGet_recordSet_self,
      recordGet_recordSet_ne]

theorem gettersAgreeOn_preserve (settings : ManagerSettings)
    (E F : Extension) (s : CollectorState)
    (hcase : F = E ∨ (F.name ≠ E.name ∧ F.ctorId ≠ E.ctorId))
    (hplugin : E.createPlugin.isSome = true)
    (hskipE : skipsExtension settings E = false)
    (h : gettersAgreeOn E s) :
    gettersAgreeOn E (createEachExtensionPlugins settings s F) := by
  rcases hcase with rfl | ⟨hn, hc⟩
  · exact gettersAgreeOn_establish settings s F hplugin hskipE
  · obtain ⟨k, h1, h2⟩ := h
    refine ⟨k, ?_, ?_⟩ <;> rw [createEach_stateGetters] <;> split
    · exact h1
    · rw [recordGet_recordSet_ne _ _ _ _ (by simp),
        recordGet_recordSet_ne _ _ _ _ (by simp [Ne.symm hn])]
      exact h1
    · exact h2
    · rw [recordGet_recordSet_ne _ _ _ _ (by simp [Ne.symm hc]),
        recordGet_recordSet_ne _ _ _ _ (by simp)]
      exact h2

/-- For extension `E`, nothing is registered under its name or constructor in
any of the registries, and no fields were attached to it. -/
def unregisteredFor (E : Extension) (s : CollectorState) : Prop :=
  recordGet s.stateGetters (GetterId.byName E.name) = Option.none
  ∧ recordGet s.stateGetters (GetterId.byCtor E.ctorId) = Option.none
  ∧ recordGet s.pluginKeys E.name = Option.none
  ∧ recordGet s.attached E.ctorId = Option.none

theorem unregisteredFor_init (E : Extension) :
    unregisteredFor E CollectorState.init := by
  simp [unregisteredFor, CollectorState.init, recordGet]

theorem unregisteredFor_preserve (settings : ManagerSettings)
    (E F : Extension) (s : CollectorState)
    (hcase : F = E ∨ (F.name ≠ E.name ∧ F.ctorId ≠ E.ctorId))
    (hnp : E.createPlugin = Option.none)
    (h : unregisteredFor E s) :
    unregisteredFor E (createEachExtensionPlugins settings s F) := by
  obtain ⟨h1, h2, h3, h4⟩ := h
  rcases hcase with rfl | ⟨hn, hc⟩
  · refine ⟨?_, ?_, ?_, ?_⟩
    · rw [createEach_stateGetters]; simp [hnp]; exact h1
    · rw [createEach_stateGetters]; simp [hnp]; exact h2
    · rw [createEach_pluginKeys]; simp [hnp]; exact h3
    · rw [createEach_attached]; simp [hnp]; exact h4
  · refine ⟨?_, ?_, ?_, ?_⟩
    · rw [createEach_stateGetters]; split
      · exact h1
      · rw [recordGet_recordSet_ne _ _ _ _ (by simp),
          recordGet_recordSet_ne _ _ _ _ (by simp [Ne.symm hn])]
        exact h1
    · rw [createEach_stateGetters]; split
      · exact h2
      · rw [recordGet_recordSet_ne _ _ _ _ (by simp [Ne.symm hc]),
          recordGet_recordSet_ne _ _ _ _ (by simp)]
        exact h2
    · rw [createEach_pluginKeys]; split
      · exact h3
      · rw [recordGet_recordSet_ne _ _ _ _ (Ne.symm hn)]
        exact h3
    · rw [createEach_attached]; split
      · exact h4
      · rw [recordGet_recordSet_ne _ _ _ _ (Ne.symm hc)]
        exact h4

theorem collectRun_extensionPlugins (settings : ManagerSettings)
    (exts : List Extension) :
    (collectRun settings exts).extensionPlugins
      = contributionsFrom settings 0 exts := by
  have h := foldl_extensionPlugins settings exts CollectorState.init
  simpa [collectRun, CollectorState.init] using h

/-- The spec's running scenario: extension `B` declares `createPlugin`
returning `spec1`; the raw spec object even carries a stale `key`, which the
collector's spread-merge must override. -/
def specOne : CreatePluginReturn := ⟨7, some ⟨"stale", 99⟩⟩

/-- Third-party plugin `x` of the spec's scenario. -/
def pluginX : ProsemirrorPlugin := ProsemirrorPlugin.external 100

/-- Third-party plugin `y` of the spec's scenario. -/
def pluginY : ProsemirrorPlugin := ProsemirrorPlugin.external 101

/-- Scenario extension `A`: declares neither plugin hook. -/
def extA : Extension := ⟨"a", 0, false, Option.none, Option.none⟩

/-- Scenario extension `B`: declares `createPlugin` returning `specOne`. -/
def extB : Extension := ⟨"b", 1, false, some specOne, Option.none⟩

/-- Scenario extension `C`: declares only `createExternalPlugins`, returning
`[pluginX, pluginY]`. -/
def extC : Extension :=
  ⟨"c", 2, false, Option.none, some [pluginX, pluginY]⟩

/-- The key the collector allocates for `extB` (the first and only
allocation in the scenario run). -/
def keyB : PluginKey := ⟨"b", 0⟩

/-- Manager settings with no exclusion configured. -/
def defaultSettings : ManagerSettings := ⟨false⟩

/-- Manager settings with `exclude.plugins` set to `true`. -/
def excludeSettings : ManagerSettings := ⟨true⟩

/-- A live view state used in concrete runs. -/
def viewState0 : EditorState := ⟨0, [], []⟩

/-- C1: the claim states that `replacePlugin(original, replacement)` replaces
every reference-equal occurrence of `original` and leaves every other entry's
identity and relative order intact, and is a no-op when `original` is absent.
The code maps every non-matching entry to `original` instead of keeping it:
on the published list `[external 0, external 1]`, replacing `external 0` by
`external 2` yields `[external 2, external 0]` rather than
`[external 2, external 1]`; and on `[external 1]`, where the original is
absent, it yields `[external 0]` rather than leaving the list unchanged. -/
theorem replacePlugin_divergence :
    (replacePlugin
        ⟨[ProsemirrorPlugin.external 0, ProsemirrorPlugin.external 1],
          ManagerPhase.editorView, viewState0⟩
        (ProsemirrorPlugin.external 0) (ProsemirrorPlugin.external 2)).plugins
      = [ProsemirrorPlugin.external 2, ProsemirrorPlugin.external 0]
  ∧ (replacePlugin
        ⟨[ProsemirrorPlugin.external 1], ManagerPhase.editorView, viewState0⟩
        (ProsemirrorPlugin.external 0) (ProsemirrorPlugin.external 2)).plugins
      = [ProsemirrorPlugin.external 0] := by
  decide

/-- C2 counterexample: the claim says the per-extension exclusion option takes
precedence over the manager-level setting, so an extension whose own option
is `false` should have its plugins materialized.  With the manager-level
exclusion set and `extB.options.exclude.plugins = false`, the collector
nevertheless produces no plugins, registers no key and attaches nothing. -/
theorem exclusion_precedence_counterexample :
    extB.excludePlugins = false
  ∧ extB.createPlugin.isSome = true
  ∧ collectRun excludeSettings [extB] = CollectorState.init := by
  decide

/-- C2 (amended): plugin creation is skipped when excluded either globally or
per-extension, combined disjunctively — a truthy manager-level or
extension-level exclusion each suffices to skip, and the extension-level
option cannot re-enable plugins under a manager-level exclusion.  When
neither is set, an extension declaring `createPlugin` is materialized: its
key is registered and its contribution appended. -/
theorem exclusion_disjunction (settings : ManagerSettings)
    (s : CollectorState) (e : Extension) :
    ((settings.excludePlugins || e.excludePlugins) = true →
        createEachExtensionPlugins settings s e = s)
  ∧ (settings.excludePlugins = false → e.excludePlugins = false →
      e.createPlugin.isSome = true →
        recordGet (createEachExtensionPlugins settings s e).pluginKeys e.name
            = some ⟨e.name, s.nextUid⟩
        ∧ (createEachExtensionPlugins settings s e).extensionPlugins
            = s.extensionPlugins ++ extensionContribution settings s.nextUid e
        ∧ extensionContribution settings s.nextUid e ≠ []) := by
  constructor
  · intro h
    obtain ⟨mex⟩ := settings
    obtain ⟨nm, cid, eex, cp, cep⟩ := e
    cases mex <;> cases eex <;> simp at h <;>
      simp [createEachExtensionPlugins]
  · intro hsm hee hcp
    have hskip := skipsExtension_false settings e (Or.inl hcp) hsm hee
    have hif : (skipsExtension settings e || e.createPlugin.isNone) = false := by
      simp [hskip, isNone_false_of_isSome hcp]
    obtain ⟨spec, hspec⟩ := Option.isSome_iff_exists.mp hcp
    refine ⟨?_, createEach_extensionPlugins settings s e, ?_⟩
    · simp [createEach_pluginKeys, hif, recordGet_recordSet_self]
    · simp [extensionContribution, hskip, hspec]

/-- Witness for C2 (amended): with the manager-level exclusion on, processing
`extB` is a no-op; with no exclusion, `extB`'s key is registered. -/
theorem exclusion_disjunction_witness :
    createEachExtensionPlugins excludeSettings CollectorState.init extB
        = CollectorState.init
  ∧ recordGet
        (createEachExtensionPlugins defaultSettings CollectorState.init extB).pluginKeys
        extB.name
      = some ⟨extB.name, 0⟩ := by
  refine ⟨(exclusion_disjunction excludeSettings CollectorState.init extB).1
    (by decide), ?_⟩
  exact ((exclusion_disjunction defaultSettings CollectorState.init extB).2
    rfl rfl (by decide)).1

/-- C3: calling `reconfigureStatePlugins` below the view-attached phase fails
with the phase-invariant error, whose message names the required phase (the
view having been added to the manager), and leaves the manager state
untouched; at or beyond the view-attached phase it derives a new state from
the current one with the published plugin list substituted and installs it as
the view's state. -/
theorem reconfigureStatePlugins_phase_gate (s : ManagerState) :
    (s.phase.toNat < ManagerPhase.editorView.toNat →
        reconfigureStatePlugins s = Except.error reconfigureMessage
        ∧ reconfigureStatePluginsRun s = s)
  ∧ reconfigureMessage
      = "`reconfigureStatePlugins` should only be called after the view has been added to the manager."
  ∧ (ManagerPhase.editorView.toNat ≤ s.phase.toNat →
        reconfigureStatePlugins s
          = Except.ok { s with viewState := s.viewState.reconfigure s.plugins }) := by
  refine ⟨?_, rfl, ?_⟩
  · intro h
    have hn : ¬ ManagerPhase.editorView.toNat ≤ s.phase.toNat := by omega
    exact ⟨by simp [reconfigureStatePlugins, hn],
      by simp [reconfigureStatePluginsRun, reconfigureStatePlugins, hn]⟩
  · intro h
    simp [reconfigureStatePlugins, h]

/-- Witness for C3: at the create phase the call fails with the phase error
and changes nothing; at the view phase it succeeds and installs the published
list into the view state. -/
theorem reconfigureStatePlugins_phase_gate_witness :
    reconfigureStatePlugins ⟨[pluginX], ManagerPhase.create, viewState0⟩
        = Except.error reconfigureMessage
  ∧ reconfigureStatePluginsRun ⟨[pluginX], ManagerPhase.create, viewState0⟩
        = ⟨[pluginX], ManagerPhase.create, viewState0⟩
  ∧ reconfigureStatePlugins ⟨[pluginX], ManagerPhase.editorView, viewState0⟩
        = Except.ok ⟨[pluginX], ManagerPhase.editorView, ⟨0, [pluginX], []⟩⟩ := by
  obtain ⟨herr, hrun⟩ :=
    (reconfigureStatePlugins_phase_gate
      ⟨[pluginX], ManagerPhase.create, viewState0⟩).1 (by decide)
  exact ⟨herr, hrun,
    (reconfigureStatePlugins_phase_gate
      ⟨[pluginX], ManagerPhase.editorView, viewState0⟩).2.2 (by decide)⟩

/-- C4: for every identifier (name or constructor) with no registered state
getter, `getStateByName` fails with the descriptive not-found invariant
message and never returns a value (so never a silent `undefined`/`null`). -/
theorem getStateByName_not_found (stateGetters : List (GetterId × PluginKey))
    (viewState : EditorState) (identifier : GetterId)
    (h : recordGet stateGetters identifier = Option.none) :
    getStateByName stateGetters viewState identifier
        = Except.error notFoundMessage
  ∧ notFoundMessage = "No plugin exists for the requested extension name."
  ∧ ∀ v : Option Nat,
      getStateByName stateGetters viewState identifier ≠ Except.ok v := by
  refine ⟨?_, rfl, ?_⟩ <;> simp [getStateByName, h]

/-- Witness for C4: looking up a never-registered name in an empty registry
fails with the not-found message. -/
theorem getStateByName_not_found_witness :
    getStateByName [] viewState0 (GetterId.byName "missing")
      = Except.error notFoundMessage := by
  exact (getStateByName_not_found [] viewState0
    (GetterId.byName "missing") rfl).1

/-- C5: the extension-plugin list is the concatenation, in input extension
order, of each extension's contribution block, and within one extension the
`createPlugin` result precedes its external plugins (visible in
`extensionContribution`); in particular, processing
`[extA (no plugin), extB (createPlugin -> specOne), extC (externals [x, y])]`
yields `[plugin(specOne merged with keyB, the allocated key overriding the
stale key in the spec), x, y]` and `pluginKeys = {b: keyB}`. -/
theorem collector_order :
    (∀ (settings : ManagerSettings) (exts : List Extension),
        (collectRun settings exts).extensionPlugins
          = contributionsFrom settings 0 exts)
  ∧ (collectRun defaultSettings [extA, extB, extC]).extensionPlugins
      = [ProsemirrorPlugin.created ⟨7, some keyB⟩, pluginX, pluginY]
  ∧ (collectRun defaultSettings [extA, extB, extC]).pluginKeys
      = [("b", keyB)] := by
  refine ⟨collectRun_extensionPlugins, ?_, ?_⟩ <;> decide

/-- C6: after the Create phase an extension declaring `createPlugin` has
`pluginKey` and `getPluginState` attached by the collector, and its plugin is
materialized and pushed onto the extension-plugin list, but — against the
claim and against the `BaseExtension` interface declared in the same source
file — the `plugin` field is never assigned to the extension instance: the
attached record for `extB` carries `plugin = none`. -/
theorem attached_plugin_field_missing :
    recordGet (collectRun defaultSettings [extB]).attached extB.ctorId
        = some ⟨some keyB, some keyB, Option.none⟩
  ∧ (∀ f ∈ (collectRun defaultSettings [extB]).attached,
        (f.2).plugin = Option.none)
  ∧ (collectRun defaultSettings [extB]).extensionPlugins
        = [ProsemirrorPlugin.created ⟨7, some keyB⟩] := by
  decide

/-- C7: when `reconfigureStatePlugins` succeeds, the view's state carries
exactly the published plugin list; a subsequent `addPlugins` call alone
changes only the published list and leaves the live view state untouched. -/
theorem reconfigure_then_addPlugins_frame (s s' : ManagerState)
    (ps : List ProsemirrorPlugin)
    (h : reconfigureStatePlugins s = Except.ok s') :
    s'.viewState.plugins = s.plugins
  ∧ (addPlugins s' ps).viewState = s'.viewState
  ∧ (addPlugins s' ps).plugins = s'.plugins ++ ps := by
  unfold reconfigureStatePlugins at h
  split at h
  · cases h
    simp [addPlugins, EditorState.reconfigure]
  · cases h

/-- Witness for C7: a concrete successful reconfiguration followed by
`addPlugins [pluginY]` leaves the view state as reconfiguration set it. -/
theorem reconfigure_then_addPlugins_frame_witness :
    (addPlugins ⟨[pluginX], ManagerPhase.editorView, ⟨0, [pluginX], []⟩⟩
        [pluginY]).viewState
      = ⟨0, [pluginX], []⟩ := by
  exact (reconfigure_then_addPlugins_frame
    ⟨[pluginX], ManagerPhase.editorView, viewState0⟩
    ⟨[pluginX], ManagerPhase.editorView, ⟨0, [pluginX], []⟩⟩
    [pluginY] rfl).2.1

/-- C9: each `addPlugins` call appends its arguments in call order after all
existing entries of the published list, removing and reordering nothing (the
phase and view state are untouched as well); so `addPlugins(p1, p2)` followed
by `addPlugins(p3)` ends in `[..., p1, p2, p3]`. -/
theorem addPlugins_append (s : ManagerState)
    (p₁ p₂ p₃ : ProsemirrorPlugin) :
    (addPlugins (addPlugins s [p₁, p₂]) [p₃]).plugins
        = s.plugins ++ [p₁, p₂, p₃]
  ∧ ∀ ps : List ProsemirrorPlugin,
      (addPlugins s ps).plugins = s.plugins ++ ps
      ∧ (addPlugins s ps).phase = s.phase
      ∧ (addPlugins s ps).viewState = s.viewState := by
  simp [addPlugins]

/-- C8: for every extension `E` declaring `createPlugin` and not excluded
(its name and constructor unique in the run), the collector registers one
getter under both `E.name` and `E.constructor`; both lookup axes resolve to
that same getter, so `getPluginState(E.name)` and
`getPluginState(E.constructor)` return identical values against any live
view state. -/
theorem getPluginState_dual_lookup (settings : ManagerSettings)
    (exts : List Extension) (E : Extension) (hmem : E ∈ exts)
    (hplugin : E.createPlugin.isSome = true)
    (hsm : settings.excludePlugins = false) (hee : E.excludePlugins = false)
    (hname : ∀ F ∈ exts, F.name = E.name → F = E)
    (hctor : ∀ F ∈ exts, F.ctorId = E.ctorId → F = E) :
    ∃ k,
      recordGet (collectRun settings exts).stateGetters
          (GetterId.byName E.name) = some k
      ∧ recordGet (collectRun settings exts).stateGetters
          (GetterId.byCtor E.ctorId) = some k
      ∧ ∀ viewState : EditorState,
          getStateByName (collectRun settings exts).stateGetters viewState
              (GetterId.byName E.name)
            = getStateByName (collectRun settings exts).stateGetters viewState
              (GetterId.byCtor E.ctorId) := by
  have hskip := skipsExtension_false settings E (Or.inl hplugin) hsm hee
  obtain ⟨l1, l2, hsplit⟩ := List.append_of_mem hmem
  have hQ : gettersAgreeOn E (collectRun settings exts) := by
    rw [hsplit, collectRun, List.foldl_append, List.foldl_cons]
    apply foldl_preserve _ (gettersAgreeOn E) l2
    · intro s F hF hQs
      apply gettersAgreeOn_preserve settings E F s ?_ hplugin hskip hQs
      by_cases hFE : F = E
      · exact Or.inl hFE
      · have hFmem : F ∈ exts := by
          rw [hsplit]
          exact List.mem_append_right _ (List.mem_cons_of_mem _ hF)
        exact Or.inr ⟨fun hcon => hFE (hname F hFmem hcon),
          fun hcon => hFE (hctor F hFmem hcon)⟩
    · exact gettersAgreeOn_establish settings _ E hplugin hskip
  obtain ⟨k, h1, h2⟩ := hQ
  exact ⟨k, h1, h2, fun vs => by simp [getStateByName, h1, h2]⟩

/-- Witness for C8: in the scenario run, looking `extB`'s plugin state up by
name and by constructor gives identical results. -/
theorem getPluginState_dual_lookup_witness :
    getStateByName (collectRun defaultSettings [extA, extB, extC]).stateGetters
        viewState0 (GetterId.byName "b")
      = getStateByName (collectRun defaultSettings [extA, extB, extC]).stateGetters
        viewState0 (GetterId.byCtor 1) := by
  obtain ⟨k, h1, h2, h3⟩ := getPluginState_dual_lookup defaultSettings
    [extA, extB, extC] extB (by decide) (by decide) rfl rfl
    (by decide) (by decide)
  exact h3 viewState0

/-- C10: an extension declaring only `createExternalPlugins` (here with
unique name and constructor, not excluded) has its external plugins appended
to the extension-plugin list as a contiguous block, yet gets no `pluginKeys`
entry, no attached fields, and no state-getter registration under its name or
constructor, so `getPluginState` fails with the not-found error on both
identifiers. -/
theorem external_only_extension (settings : ManagerSettings)
    (exts : List Extension) (E : Extension) (xs : List ProsemirrorPlugin)
    (hmem : E ∈ exts) (hnp : E.createPlugin = Option.none)
    (hxs : E.createExternalPlugins = some xs)
    (hsm : settings.excludePlugins = false) (hee : E.excludePlugins = false)
    (hname : ∀ F ∈ exts, F.name = E.name → F = E)
    (hctor : ∀ F ∈ exts, F.ctorId = E.ctorId → F = E) :
    (∃ pre post, (collectRun settings exts).extensionPlugins
        = pre ++ (xs ++ post))
  ∧ recordGet (collectRun settings exts).pluginKeys E.name = Option.none
  ∧ recordGet (collectRun settings exts).attached E.ctorId = Option.none
  ∧ recordGet (collectRun settings exts).stateGetters
      (GetterId.byName E.name) = Option.none
  ∧ recordGet (collectRun settings exts).stateGetters
      (GetterId.byCtor E.ctorId) = Option.none
  ∧ ∀ viewState : EditorState,
      getStateByName (collectRun settings exts).stateGetters viewState
          (GetterId.byName E.name) = Except.error notFoundMessage
    ∧ getStateByName (collectRun settings exts).stateGetters viewState
          (GetterId.byCtor E.ctorId) = Except.error notFoundMessage := by
  have hsome : E.createExternalPlugins.isSome = true := by simp [hxs]
  have hskip := skipsExtension_false settings E (Or.inr hsome) hsm hee
  have hU : unregisteredFor E (collectRun settings exts) := by
    apply foldl_preserve _ (unregisteredFor E) exts
    · intro s F hF hUs
      apply unregisteredFor_preserve settings E F s ?_ hnp hUs
      by_cases hFE : F = E
      · exact Or.inl hFE
      · exact Or.inr ⟨fun hcon => hFE (hname F hF hcon),
          fun hcon => hFE (hctor F hF hcon)⟩
    · exact unregisteredFor_init E
  obtain ⟨h1, h2, h3, h4⟩ := hU
  refine ⟨?_, h3, h4, h1, h2,
    fun vs => ⟨by simp [getStateByName, h1], by simp [getStateByName, h2]⟩⟩
  obtain ⟨l1, l2, hsplit⟩ := List.append_of_mem hmem
  have hcontribE :
      extensionContribution settings (l1.foldl (nextUidAfter settings) 0) E
        = xs := by
    simp [extensionContribution, hskip, hnp, hxs]
  refine ⟨contributionsFrom settings 0 l1,
    contributionsFrom settings
      (nextUidAfter settings (l1.foldl (nextUidAfter settings) 0) E) l2, ?_⟩
  rw [collectRun_extensionPlugins, hsplit, contributionsFrom_append]
  simp only [contributionsFrom]
  rw [hcontribE]

/-- Witness for C10: in the scenario run, `extC`'s externals `[x, y]` land on
the list while both `getPluginState` lookups for `extC` fail, and it has no
key entry and no attached fields. -/
theorem external_only_extension_witness :
    getStateByName (collectRun defaultSettings [extA, extB, extC]).stateGetters
        viewState0 (GetterId.byName "c") = Except.error notFoundMessage
  ∧ recordGet (collectRun defaultSettings [extA, extB, extC]).pluginKeys "c"
      = Option.none
  ∧ recordGet (collectRun defaultSettings [extA, extB, extC]).attached 2
      = Option.none := by
  obtain ⟨hpre, hk, hat, hg1, hg2, herr⟩ := external_only_extension
    defaultSettings [extA, extB, extC] extC [pluginX, pluginY]
    (by decide) rfl rfl rfl rfl (by decide) (by decide)
  exact ⟨(herr viewState0).1, hk, hat⟩

end Remirror
